import Mathlib

/-!
Verification of the `leso-kn/ble` BLE host stack against its
natural-language specification.  The definitions below are a shallow
embedding of the Go source: pure data and control flow are translated
into executable Lean functions, stateful code into explicit state
passing, and channel interactions into explicit event traces.
-/

namespace Ble

/-! ## Constants from the `ble` package (src/unnamed/part_002) -/

/-- `DefaultMTU` as defined in the source: `const DefaultMTU = 339`. -/
def DefaultMTU : Nat := 339

/-- `MaxMTU` as defined in the source: `const MaxMTU = 512 + 3`. -/
def MaxMTU : Nat := 512 + 3

/-! ## ATT opcodes.

Modelled from the spec: the ATT opcode constants live in the `att`
package's PDU definitions, which are not among the provided source
files.  The values are the Attribute Protocol opcodes the spec refers
to ([Vol 3, Part F]; the spec names 0x1B, 0x1D and 0x1E explicitly). -/

def errorResponseCode : Nat := 0x01
def exchangeMTURequestCode : Nat := 0x02
def exchangeMTUResponseCode : Nat := 0x03
def findInformationRequestCode : Nat := 0x04
def findInformationResponseCode : Nat := 0x05
def readByTypeRequestCode : Nat := 0x08
def readByTypeResponseCode : Nat := 0x09
def readRequestCode : Nat := 0x0A
def readResponseCode : Nat := 0x0B
def readBlobRequestCode : Nat := 0x0C
def readBlobResponseCode : Nat := 0x0D
def readMultipleRequestCode : Nat := 0x0E
def readMultipleResponseCode : Nat := 0x0F
def readByGroupTypeRequestCode : Nat := 0x10
def readByGroupTypeResponseCode : Nat := 0x11
def writeRequestCode : Nat := 0x12
def writeResponseCode : Nat := 0x13
def prepareWriteRequestCode : Nat := 0x16
def prepareWriteResponseCode : Nat := 0x17
def executeWriteRequestCode : Nat := 0x18
def executeWriteResponseCode : Nat := 0x19
def handleValueNotificationCode : Nat := 0x1B
def handleValueIndicationCode : Nat := 0x1D
def handleValueConfirmationCode : Nat := 0x1E

/-- Modelled from the spec: the ATT error code `ReqNotSupp`
(Request Not Supported); `ble.ErrReqNotSupp` is defined outside the
provided source files. -/
def errReqNotSupp : Nat := 0x06

/-- Error kinds surfaced by the ATT client operations
(`ErrInvalidArgument`, `ErrInvalidResponse`, `ble.ATTError`,
`ErrSeqProtoTimeout` in the source). -/
inductive AttErr
  | invalidArgument
  | invalidResponse
  | attError (code : Nat)
  | seqProtoTimeout
  deriving DecidableEq, Repr

/-! ## ATT client state (src/linux/att/client.go)

`Client` holds a `ble.Conn` (its negotiated `RxMTU`/`TxMTU`) and the
single transmit buffer circulating through the capacity-1 `chTxBuf`
channel; for the MTU claims only the buffer's length matters. -/

structure L2CState where
  rxMTU : Nat
  txMTU : Nat
  deriving DecidableEq, Repr

structure AttClientState where
  l2c : L2CState
  txBufLen : Nat
  deriving DecidableEq, Repr

/-- Response validation of `Client.ExchangeMTU`
(src/linux/att/client.go lines 96-108): the `switch` over the received
bytes, returning the `ServerRxMTU` field (little-endian u16 at offset 1)
on success. -/
def parseExchangeMTUResponse (rsp : List Nat) : Except AttErr Nat :=
  if rsp.headD 0 = errorResponseCode ∧ rsp.length = 5 then
    .error (.attError (rsp.getD 4 0))
  else if rsp.headD 0 = errorResponseCode ∧ rsp.length ≠ 5 then
    .error .invalidResponse
  else if rsp.headD 0 ≠ exchangeMTUResponseCode then
    .error .invalidResponse
  else if rsp.length ≠ 3 then
    .error .invalidResponse
  else
    .ok (rsp.getD 1 0 + 256 * rsp.getD 2 0)

/-- `Client.ExchangeMTU` (src/linux/att/client.go lines 72-118),
with the response frame delivered by the peer passed explicitly.
Validation rejects `clientRxMTU < ble.DefaultMTU || clientRxMTU > ble.MaxMTU`;
on success the connection's TxMTU is set and the transmit buffer
re-allocated when its length differs from the server's Rx MTU. -/
def exchangeMTU (st : AttClientState) (clientRxMTU : Nat) (rsp : List Nat) :
    AttClientState × Except AttErr Nat :=
  if clientRxMTU < DefaultMTU ∨ MaxMTU < clientRxMTU then
    (st, .error .invalidArgument)
  else
    let st := { st with l2c := { st.l2c with rxMTU := clientRxMTU } }
    match parseExchangeMTUResponse rsp with
    | .error e => (st, .error e)
    | .ok txMTU =>
      if st.txBufLen ≠ txMTU then
        ({ l2c := { st.l2c with txMTU := txMTU }, txBufLen := txMTU }, .ok txMTU)
      else
        (st, .ok txMTU)

/-- A connection state as the accept loop creates it: both MTUs and the
transmit buffer at the source's `DefaultMTU`. -/
def initState : AttClientState := ⟨⟨DefaultMTU, DefaultMTU⟩, DefaultMTU⟩

/-- C1 counterexample: the claim says every `clientRxMTU` with
`23 ≤ clientRxMTU ≤ 515` passes validation, in particular MTU = 185;
but the source checks `clientRxMTU < ble.DefaultMTU` with
`DefaultMTU = 339`, so `ExchangeMTU(185)` returns `InvalidArgument`. -/
theorem exchangeMTU_185_rejected :
    (23 ≤ 185 ∧ 185 ≤ 515) ∧
      (exchangeMTU initState 185 [exchangeMTUResponseCode, 100, 0]).2
        = .error .invalidArgument :=
  ⟨⟨by decide, by decide⟩, rfl⟩

/-- No branch of the response-validation `switch` of `ExchangeMTU`
produces `ErrInvalidArgument`. -/
theorem parseExchangeMTUResponse_ne_invalidArgument (rsp : List Nat) :
    parseExchangeMTUResponse rsp ≠ .error .invalidArgument := by
  unfold parseExchangeMTUResponse
  split
  · simp
  · split
    · simp
    · split
      · simp
      · split <;> simp

/-- C1 amended: argument validation of `ExchangeMTU` accepts exactly
`DefaultMTU = 339 ≤ clientRxMTU ≤ MaxMTU = 515`; within that range the
operation never returns `InvalidArgument`, whatever response arrives. -/
theorem exchangeMTU_accepts_339_to_515 (st : AttClientState) (m : Nat)
    (rsp : List Nat) (h1 : DefaultMTU ≤ m) (h2 : m ≤ MaxMTU) :
    (exchangeMTU st m rsp).2 ≠ Except.error AttErr.invalidArgument := by
  unfold exchangeMTU
  have hnot : ¬(m < DefaultMTU ∨ MaxMTU < m) := by omega
  simp only [if_neg hnot]
  cases hp : parseExchangeMTUResponse rsp with
  | error e =>
      have := parseExchangeMTUResponse_ne_invalidArgument rsp
      rw [hp] at this
      simpa using this
  | ok v => simp only [hp]; split <;> simp

/-- C1 witness: MTU 339 passes validation. -/
theorem exchangeMTU_accepts_339_to_515_witness :
    (exchangeMTU initState 339 [exchangeMTUResponseCode, 100, 0]).2
      ≠ Except.error AttErr.invalidArgument :=
  exchangeMTU_accepts_339_to_515 initState 339 _ (by decide) (by decide)

/-- C3 counterexample: with `clientRxMTU = 339` and a well-formed
response carrying `serverRxMTU = 515` (bytes `[0x03, 0x03, 0x02]`),
the code installs and returns 515, not
`min(clientRxMTU, serverRxMTU) = 339`. -/
theorem exchangeMTU_not_min :
    (exchangeMTU initState 339 [exchangeMTUResponseCode, 0x03, 0x02]).2
        = .ok 515 ∧
      (exchangeMTU initState 339 [exchangeMTUResponseCode, 0x03, 0x02]).1.l2c.txMTU
        = 515 ∧
      min 339 515 ≠ 515 :=
  ⟨rfl, rfl, by decide⟩

/-- C3 amended: on a well-formed `ExchangeMTU` response
`[0x03, lo, hi]`, the value returned and the new transmit-buffer size
both equal the server's Rx MTU `lo + 256*hi` (not the minimum with the
client's Rx MTU); the connection's TxMTU is set to it when the previous
buffer length differed, and is left unchanged otherwise. -/
theorem exchangeMTU_installs_serverRxMTU (st : AttClientState) (m lo hi : Nat)
    (h1 : DefaultMTU ≤ m) (h2 : m ≤ MaxMTU) :
    (exchangeMTU st m [exchangeMTUResponseCode, lo, hi]).2 = .ok (lo + 256 * hi) ∧
      (exchangeMTU st m [exchangeMTUResponseCode, lo, hi]).1.txBufLen
        = lo + 256 * hi ∧
      (exchangeMTU st m [exchangeMTUResponseCode, lo, hi]).1.l2c.txMTU
        = (if st.txBufLen ≠ lo + 256 * hi then lo + 256 * hi else st.l2c.txMTU) := by
  unfold exchangeMTU parseExchangeMTUResponse
  have hnot : ¬(m < DefaultMTU ∨ MaxMTU < m) := by omega
  simp only [if_neg hnot]
  have hhead : List.headD [exchangeMTUResponseCode, lo, hi] 0 = exchangeMTUResponseCode := rfl
  have hne : exchangeMTUResponseCode ≠ errorResponseCode := by decide
  simp [hhead, hne, exchangeMTUResponseCode, errorResponseCode]
  split <;> simp_all

/-- C3 witness: the amended statement at `clientRxMTU = 339` and a
response carrying `serverRxMTU = 515`. -/
theorem exchangeMTU_installs_serverRxMTU_witness :
    (exchangeMTU initState 339 [exchangeMTUResponseCode, 3, 2]).2 = .ok (3 + 256 * 2) ∧
      (exchangeMTU initState 339 [exchangeMTUResponseCode, 3, 2]).1.txBufLen
        = 3 + 256 * 2 ∧
      (exchangeMTU initState 339 [exchangeMTUResponseCode, 3, 2]).1.l2c.txMTU
        = (if initState.txBufLen ≠ 3 + 256 * 2 then 3 + 256 * 2
           else initState.l2c.txMTU) :=
  exchangeMTU_installs_serverRxMTU initState 339 3 2 (by decide) (by decide)

/-! ## Long characteristic read (src/unnamed/part_001, `ReadLongCharacteristic`) -/

/-- The ATT requests the GATT client issues while reading. -/
inductive AttReq
  | read (handle : Nat)
  | readBlob (handle offset : Nat)
  deriving DecidableEq, Repr

/-- Modelled from the spec: the ATT server's answer to `Read` /
`ReadBlob(offset)` on an attribute with stored value `value` — the
value from `offset` on, truncated to `TxMTU - 1` bytes ("long reads
continue until the returned chunk is shorter than `TxMTU-1`"); the
server database code is not among the provided source files. -/
def serverChunk (value : List Nat) (off mtu : Nat) : List Nat :=
  (value.drop off).take (mtu - 1)

/-- The `for len(read) >= p.conn.TxMTU()-1` loop of
`ReadLongCharacteristic`, issuing `ReadBlob(valueHandle, len(buffer))`
until a short chunk arrives.  `fuel` bounds the iteration count; the
callers pass enough for the loop to run to completion. -/
def readLongGo (value : List Nat) (vh mtu : Nat) :
    List Nat → List Nat → List AttReq → Nat → List Nat × List AttReq
  | buffer, _, reqs, 0 => (buffer, reqs.reverse)
  | buffer, read, reqs, fuel + 1 =>
    if mtu - 1 ≤ read.length then
      let r := serverChunk value buffer.length mtu
      readLongGo value vh mtu (buffer ++ r) r (AttReq.readBlob vh buffer.length :: reqs) fuel
    else
      (buffer, reqs.reverse)

/-- `Client.ReadLongCharacteristic` (src/unnamed/part_001 lines
324-346) against the spec-modelled server: the initial `Read`, then
blob reads at the growing buffer length.  Returns the final buffer and
the sequence of ATT requests issued. -/
def readLongCharacteristic (value : List Nat) (vh mtu : Nat) :
    List Nat × List AttReq :=
  let read := serverChunk value 0 mtu
  readLongGo value vh mtu read read [AttReq.read vh] (value.length + 1)

/-- C2 counterexample: with TxMTU = 23 and a 40-byte stored value the
loop issues `Read` and `ReadBlob(offset=22)` only — the second chunk
has 18 < 22 bytes, so the claimed third request `ReadBlob(offset=40)`
is never sent. -/
theorem readLong_40_two_requests :
    (readLongCharacteristic (List.range 40) 0x12 23).2
        = [AttReq.read 0x12, AttReq.readBlob 0x12 22] ∧
      (readLongCharacteristic (List.range 40) 0x12 23).2
        ≠ [AttReq.read 0x12, AttReq.readBlob 0x12 22, AttReq.readBlob 0x12 40] := by
  constructor
  · rfl
  · intro h
    rw [show (readLongCharacteristic (List.range 40) 0x12 23).2
          = [AttReq.read 0x12, AttReq.readBlob 0x12 22] from rfl] at h
    simp at h

/-- C2 amended: with TxMTU = 23 and any 40-byte stored value,
`ReadLongCharacteristic` issues exactly `Read(valueHandle)` then
`ReadBlob(valueHandle, offset=22)`, and returns the original 40 bytes
byte-for-byte. -/
theorem readLong_40_exact (value : List Nat) (vh : Nat)
    (h : value.length = 40) :
    readLongCharacteristic value vh 23
      = (value, [AttReq.read vh, AttReq.readBlob vh 22]) := by
  have h22 : (value.take 22).length = 22 := by
    simp [List.length_take, h]
  have hd : (value.drop 22).length = 18 := by
    simp [List.length_drop, h]
  have hdt : (value.drop 22).take 22 = value.drop 22 :=
    List.take_of_length_le (by omega)
  unfold readLongCharacteristic
  rw [h]
  unfold readLongGo
  simp only [serverChunk, List.drop_zero, h22]
  norm_num
  unfold readLongGo
  simp only [h22, hdt, hd]
  norm_num [List.take_append_drop]

/-- C2 witness: the amended statement evaluated at the concrete
40-byte value `0, 1, ..., 39`. -/
theorem readLong_40_exact_witness :
    readLongCharacteristic (List.range 40) 0x12 23
      = (List.range 40, [AttReq.read 0x12, AttReq.readBlob 0x12 22]) :=
  readLong_40_exact (List.range 40) 0x12 (by simp)

/-! ## Transmit-buffer token discipline (src/linux/att/client.go)

Every client request operation interacts with the capacity-1 `chTxBuf`
channel as `txBuf := <-c.chTxBuf` followed by a deferred
`c.chTxBuf <- txBuf` that runs on success and on every error path; the
request itself is written while the token is held.  Each operation's
channel interactions are recorded as an event trace; argument
validation happens before the acquire and produces the empty trace. -/

inductive TokEvent
  | acquire
  | send
  | release
  deriving DecidableEq, Repr

/-- Run a trace against a channel of capacity `cap` holding `count`
buffers.  An `acquire` from an empty channel and a `release` into a
full channel block (`none`); a `send` is only legal while the token is
held, i.e. while the channel is empty. -/
def runChan (cap : Nat) : Nat → List TokEvent → Option Nat
  | count, [] => some count
  | count, TokEvent.acquire :: rest =>
    if 0 < count then runChan cap (count - 1) rest else none
  | count, TokEvent.release :: rest =>
    if count < cap then runChan cap (count + 1) rest else none
  | count, TokEvent.send :: rest =>
    if count = 0 then runChan cap count rest else none

/-- The discipline of the claim: starting from the capacity-1 channel
holding its single buffer (`NewClient` does `c.chTxBuf <- make(...)`,
src/linux/att/client.go line 50), the trace runs without blocking,
sends only while holding the token, and leaves exactly one buffer in
the channel. -/
def tokenOK (evs : List TokEvent) : Bool :=
  runChan 1 1 evs == some 1

/-- `Client.ExchangeMTU`: validation, then acquire/send/release. -/
def exchangeMTUEvents (clientRxMTU : Nat) : List TokEvent :=
  if clientRxMTU < DefaultMTU ∨ MaxMTU < clientRxMTU then []
  else [.acquire, .send, .release]

/-- `Client.FindInformation`: rejects `starth == 0 || starth > endh`. -/
def findInformationEvents (starth endh : Nat) : List TokEvent :=
  if starth = 0 ∨ endh < starth then [] else [.acquire, .send, .release]

/-- `Client.ReadByType`: rejects `starth > endh` and UUID lengths other
than 2 and 16. -/
def readByTypeEvents (starth endh uuidLen : Nat) : List TokEvent :=
  if endh < starth ∨ (uuidLen ≠ 2 ∧ uuidLen ≠ 16) then []
  else [.acquire, .send, .release]

/-- `Client.Read`: no argument validation. -/
def readEvents : List TokEvent := [.acquire, .send, .release]

/-- `Client.ReadBlob`: no argument validation. -/
def readBlobEvents : List TokEvent := [.acquire, .send, .release]

/-- `Client.ReadMultiple`: rejects `len(handles) < 2` and
`len(handles)*2 > TxMTU-1`. -/
def readMultipleEvents (numHandles txMTU : Nat) : List TokEvent :=
  if numHandles < 2 ∨ txMTU - 1 < numHandles * 2 then []
  else [.acquire, .send, .release]

/-- `Client.ReadByGroupType`: same validation as `ReadByType`. -/
def readByGroupTypeEvents (starth endh uuidLen : Nat) : List TokEvent :=
  if endh < starth ∨ (uuidLen ≠ 2 ∧ uuidLen ≠ 16) then []
  else [.acquire, .send, .release]

/-- `Client.Write`: rejects `len(value) > TxMTU-3`. -/
def writeEvents (valueLen txMTU : Nat) : List TokEvent :=
  if txMTU - 3 < valueLen then [] else [.acquire, .send, .release]

/-- `Client.PrepareWrite`: rejects `len(value) > TxMTU-5`. -/
def prepareWriteEvents (valueLen txMTU : Nat) : List TokEvent :=
  if txMTU - 5 < valueLen then [] else [.acquire, .send, .release]

/-- `Client.ExecuteWrite`: no argument validation. -/
def executeWriteEvents : List TokEvent := [.acquire, .send, .release]

/-- C4: every client request operation either fails validation without
touching the channel, or takes the single token, sends the request
while holding it, and returns exactly one token on completion — so at
most one ATT request is ever awaiting a response on the bearer. -/
theorem att_token_discipline :
    (∀ m, tokenOK (exchangeMTUEvents m) = true) ∧
    (∀ s e, tokenOK (findInformationEvents s e) = true) ∧
    (∀ s e u, tokenOK (readByTypeEvents s e u) = true) ∧
    tokenOK readEvents = true ∧
    tokenOK readBlobEvents = true ∧
    (∀ n t, tokenOK (readMultipleEvents n t) = true) ∧
    (∀ s e u, tokenOK (readByGroupTypeEvents s e u) = true) ∧
    (∀ v t, tokenOK (writeEvents v t) = true) ∧
    (∀ v t, tokenOK (prepareWriteEvents v t) = true) ∧
    tokenOK executeWriteEvents = true := by
  refine ⟨?_, ?_, ?_, by decide, by decide, ?_, ?_, ?_, ?_, by decide⟩
  · intro m; unfold exchangeMTUEvents; split <;> decide
  · intro s e; unfold findInformationEvents; split <;> decide
  · intro s e u; unfold readByTypeEvents; split <;> decide
  · intro n t; unfold readMultipleEvents; split <;> decide
  · intro s e u; unfold readByGroupTypeEvents; split <;> decide
  · intro v t; unfold writeEvents; split <;> decide
  · intro v t; unfold prepareWriteEvents; split <;> decide

/-! ## Request/response pairing and cross-talk (src/linux/att/client.go, `sendReq`) -/

/-- Modelled from the spec: the `rspOfReq` table of the `att` package
(not among the provided source files) mapping each request opcode to
its response opcode — strict opcode pairing per [Vol 3, Part F]. -/
def rspOfReq (op : Nat) : Nat :=
  if op = exchangeMTURequestCode then exchangeMTUResponseCode
  else if op = findInformationRequestCode then findInformationResponseCode
  else if op = readByTypeRequestCode then readByTypeResponseCode
  else if op = readRequestCode then readResponseCode
  else if op = readBlobRequestCode then readBlobResponseCode
  else if op = readMultipleRequestCode then readMultipleResponseCode
  else if op = readByGroupTypeRequestCode then readByGroupTypeResponseCode
  else if op = writeRequestCode then writeResponseCode
  else if op = prepareWriteRequestCode then prepareWriteResponseCode
  else if op = executeWriteRequestCode then executeWriteResponseCode
  else 0

/-- Modelled from the spec: `newErrorResponse(op, handle, code)` of the
`att` package (not among the provided source files) — the 5-byte
ErrorResponse PDU `opcode + reqOpcode + handle (LE u16) + code`. -/
def newErrorResponse (reqOp handle code : Nat) : List Nat :=
  [errorResponseCode, reqOp, handle % 256, handle / 256, code]

/-- Outcome of `Client.sendReq`: the ErrorResponse frames it wrote back
for spurious peer requests, and the response it returned (`none` when
the supplied frames ran out, which in the source is the 2s timeout). -/
structure SendReqOutcome where
  writes : List (List Nat)
  result : Option (List Nat)
  deriving DecidableEq, Repr

/-- The receive `select` loop of `Client.sendReq`
(src/linux/att/client.go lines 519-540) over the frames delivered on
`c.rspc`: a frame whose opcode is `ErrorResponseCode` or `rspOf(R)` is
returned; any other frame is answered with
`newErrorResponse(rsp[0], 0x0000, ErrReqNotSupp)` and the wait
continues. -/
def sendReqLoop (reqOp : Nat) : List (List Nat) → SendReqOutcome
  | [] => ⟨[], none⟩
  | f :: rest =>
    if f.headD 0 = errorResponseCode ∨ f.headD 0 = rspOfReq reqOp then
      ⟨[], some f⟩
    else
      let r := sendReqLoop reqOp rest
      ⟨newErrorResponse (f.headD 0) 0 errReqNotSupp :: r.writes, r.result⟩

/-- C5: a frame whose opcode is neither `ErrorResponse` nor `rspOf(R)`
makes the client write `ErrorResponse{opcode = received, handle = 0,
code = ReqNotSupp}` back to the peer and keep waiting — the pending
request's outcome is exactly that of the remaining frames. -/
theorem sendReq_crosstalk (reqOp : Nat) (spurious : List Nat)
    (rest : List (List Nat))
    (h1 : spurious.headD 0 ≠ errorResponseCode)
    (h2 : spurious.headD 0 ≠ rspOfReq reqOp) :
    sendReqLoop reqOp (spurious :: rest)
      = ⟨newErrorResponse (spurious.headD 0) 0 errReqNotSupp
           :: (sendReqLoop reqOp rest).writes,
         (sendReqLoop reqOp rest).result⟩ := by
  have hcond : ¬(spurious.headD 0 = errorResponseCode
      ∨ spurious.headD 0 = rspOfReq reqOp) := by
    intro hc
    rcases hc with hc | hc
    · exact h1 hc
    · exact h2 hc
  conv_lhs => rw [sendReqLoop]
  rw [if_neg hcond]

/-- C5 witness: while waiting for the ExchangeMTU response (request
opcode 0x02), a spurious Write request (0x12) is answered with
`[0x01, 0x12, 0x00, 0x00, 0x06]` and the later real response
`[0x03, 100, 0]` is still returned. -/
theorem sendReq_crosstalk_witness :
    sendReqLoop exchangeMTURequestCode
        [[writeRequestCode, 1, 0], [exchangeMTUResponseCode, 100, 0]]
      = ⟨[[errorResponseCode, writeRequestCode, 0, 0, errReqNotSupp]],
         some [exchangeMTUResponseCode, 100, 0]⟩ := by
  rw [sendReq_crosstalk exchangeMTURequestCode [writeRequestCode, 1, 0]
        [[exchangeMTUResponseCode, 100, 0]] (by decide) (by decide)]
  rfl

/-! ## The receive loop (src/linux/att/client.go, `Client.Loop`)

Each iteration reads one ATT frame and classifies it by opcode:
even opcodes are enqueued to the server request queue (dropped when the
queue is full), odd non-notification opcodes go to the pending-response
channel, notifications/indications are enqueued to the notification
dispatch queue (dropped when full) — and for an indication a
`HandleValueConfirmation` is always written before the next read.
The per-frame Bool records whether the relevant bounded queue accepted
the frame. -/

inductive LoopEvent
  | readFrame (b : List Nat)
  | enqueueReq (b : List Nat)
  | dropReq (b : List Nat)
  | deliverRsp (b : List Nat)
  | enqueueNotif (b : List Nat)
  | dropNotif (b : List Nat)
  | writeConfirmation
  deriving DecidableEq, Repr

/-- One iteration of `Client.Loop` after the read of frame `b`
(src/linux/att/client.go lines 659-716). -/
def loopStep (b : List Nat) (accept : Bool) : List LoopEvent :=
  let op := b.headD 0
  if op % 2 = 0 then
    [if accept then LoopEvent.enqueueReq b else LoopEvent.dropReq b]
  else if op ≠ handleValueNotificationCode ∧ op ≠ handleValueIndicationCode then
    [LoopEvent.deliverRsp b]
  else
    (if accept then [LoopEvent.enqueueNotif b] else [LoopEvent.dropNotif b])
      ++ (if op = handleValueIndicationCode then [LoopEvent.writeConfirmation] else [])

/-- `Client.Loop` over a finite sequence of delivered frames, each
paired with its queue-acceptance outcome. -/
def clientLoop : List (List Nat × Bool) → List LoopEvent
  | [] => []
  | (b, acc) :: rest => (LoopEvent.readFrame b :: loopStep b acc) ++ clientLoop rest

/-- Scans an event trace; `pending = true` means an indication has been
read whose confirmation has not been written yet.  Another read (or the
end of the trace) while pending refutes the property. -/
def indicationsConfirmed : Bool → List LoopEvent → Bool
  | pending, [] => !pending
  | true, LoopEvent.writeConfirmation :: rest => indicationsConfirmed false rest
  | true, LoopEvent.readFrame _ :: _ => false
  | true, _ :: rest => indicationsConfirmed true rest
  | false, LoopEvent.readFrame b :: rest =>
    indicationsConfirmed (b.headD 0 == handleValueIndicationCode) rest
  | false, _ :: rest => indicationsConfirmed false rest

/-- One loop iteration leaves the scanner back in the non-pending
state: whatever the frame and whatever the queues did, a pending
indication is confirmed within the iteration's own events. -/
theorem indicationsConfirmed_segment (b : List Nat) (acc : Bool)
    (tail : List LoopEvent) :
    indicationsConfirmed false (LoopEvent.readFrame b :: (loopStep b acc ++ tail))
      = indicationsConfirmed false tail := by
  have hstep : indicationsConfirmed false
        (LoopEvent.readFrame b :: (loopStep b acc ++ tail))
      = indicationsConfirmed (b.headD 0 == handleValueIndicationCode)
          (loopStep b acc ++ tail) := rfl
  rw [hstep]
  by_cases hind : b.headD 0 = handleValueIndicationCode
  · rw [show (b.headD 0 == handleValueIndicationCode) = true from beq_iff_eq.mpr hind]
    simp only [loopStep]
    rw [hind]
    rw [if_neg (by decide), if_neg (by decide), if_pos rfl]
    cases acc <;> rfl
  · rw [show (b.headD 0 == handleValueIndicationCode) = false from
        beq_eq_false_iff_ne.mpr hind]
    simp only [loopStep]
    by_cases hev : b.headD 0 % 2 = 0
    · rw [if_pos hev]
      cases acc <;> rfl
    · rw [if_neg hev]
      by_cases hnot : b.headD 0 = handleValueNotificationCode
      · rw [if_neg (fun hc => hc.1 hnot), if_neg hind]
        cases acc <;> simp only [List.append_nil] <;> rfl
      · rw [if_pos ⟨hnot, hind⟩]
        rfl

/-- C6: in every run of the receive loop, each received
HandleValueIndication frame is answered with a HandleValueConfirmation
before the next ATT frame is read, whether or not the notification
queue accepted the frame. -/
theorem loop_confirms_indications (frames : List (List Nat × Bool)) :
    indicationsConfirmed false (clientLoop frames) = true := by
  induction frames with
  | nil => rfl
  | cons f rest ih =>
    obtain ⟨b, acc⟩ := f
    show indicationsConfirmed false
        ((LoopEvent.readFrame b :: loopStep b acc) ++ clientLoop rest) = true
    rw [List.cons_append, indicationsConfirmed_segment]
    exact ih

/-! ## Response validation of `ExecuteWrite` (src/linux/att/client.go lines 496-507) -/

/-- The `switch` of `Client.ExecuteWrite`.  The source's second case
repeats `rsp[0] == ErrorResponseCode && len(rsp) == 5` (instead of
`!= 5`); the arm is dead, and a short or long ErrorResponse still
falls to the opcode-mismatch case.  No case constrains the length of a
success response. -/
def parseExecuteWriteResponse (rsp : List Nat) : Except AttErr Unit :=
  if rsp.headD 0 = errorResponseCode ∧ rsp.length = 5 then
    .error (.attError (rsp.getD 4 0))
  else if rsp.headD 0 = errorResponseCode ∧ rsp.length = 5 then
    .error .invalidResponse
  else if rsp.headD 0 ≠ executeWriteResponseCode then
    .error .invalidResponse
  else
    .ok ()

/-- Modelled from the spec: the fixed layout of an Execute Write
Response is the opcode byte alone ("length matches fixed/variable
response layout"). -/
def executeWriteResponseLayoutLen : Nat := 1

/-- C7 counterexample: a 2-byte frame `[0x19, 0x00]` violates the
Execute Write Response layout, yet `ExecuteWrite` accepts it and
returns success instead of `InvalidResponse` — the success path checks
only the opcode byte. -/
theorem executeWrite_accepts_overlong_response :
    [executeWriteResponseCode, 0].length ≠ executeWriteResponseLayoutLen ∧
      parseExecuteWriteResponse [executeWriteResponseCode, 0] = .ok () :=
  ⟨by decide, rfl⟩

/-- C7 amended: for the cited operations (`ExchangeMTU`,
`ExecuteWrite`), an ErrorResponse of length exactly 5 yields `ATTError`
with the code in the fifth byte; an ErrorResponse of any other length
and an opcode mismatch yield `InvalidResponse`; `ExchangeMTU`
additionally rejects any response whose length is not 3; but
`ExecuteWrite` performs no length check on a success response. -/
theorem response_validation_errors :
    (∀ rsp : List Nat, rsp.headD 0 = errorResponseCode → rsp.length = 5 →
      parseExecuteWriteResponse rsp = .error (.attError (rsp.getD 4 0))
        ∧ parseExchangeMTUResponse rsp = .error (.attError (rsp.getD 4 0))) ∧
    (∀ rsp : List Nat, rsp.headD 0 = errorResponseCode → rsp.length ≠ 5 →
      parseExecuteWriteResponse rsp = .error .invalidResponse
        ∧ parseExchangeMTUResponse rsp = .error .invalidResponse) ∧
    (∀ rsp : List Nat, rsp.headD 0 ≠ errorResponseCode →
      rsp.headD 0 ≠ executeWriteResponseCode →
      parseExecuteWriteResponse rsp = .error .invalidResponse) ∧
    (∀ rsp : List Nat, rsp.headD 0 ≠ errorResponseCode →
      rsp.headD 0 ≠ exchangeMTUResponseCode →
      parseExchangeMTUResponse rsp = .error .invalidResponse) ∧
    (∀ rsp : List Nat, rsp.headD 0 = exchangeMTUResponseCode → rsp.length ≠ 3 →
      parseExchangeMTUResponse rsp = .error .invalidResponse) := by
  refine ⟨?_, ?_, ?_, ?_, ?_⟩
  · intro rsp h1 h2
    constructor
    · unfold parseExecuteWriteResponse
      rw [if_pos ⟨h1, h2⟩]
    · unfold parseExchangeMTUResponse
      rw [if_pos ⟨h1, h2⟩]
  · intro rsp h1 h2
    constructor
    · unfold parseExecuteWriteResponse
      rw [if_neg (fun hc => h2 hc.2), if_neg (fun hc => h2 hc.2),
        if_pos (by rw [h1]; decide)]
    · unfold parseExchangeMTUResponse
      rw [if_neg (fun hc => h2 hc.2), if_pos ⟨h1, h2⟩]
  · intro rsp h1 h2
    unfold parseExecuteWriteResponse
    rw [if_neg (fun hc => h1 hc.1), if_neg (fun hc => h1 hc.1), if_pos h2]
  · intro rsp h1 h2
    unfold parseExchangeMTUResponse
    rw [if_neg (fun hc => h1 hc.1), if_neg (fun hc => h1 hc.1), if_pos h2]
  · intro rsp h1 h2
    have hne : rsp.headD 0 ≠ errorResponseCode := by
      rw [h1]; decide
    unfold parseExchangeMTUResponse
    rw [if_neg (fun hc => hne hc.1), if_neg (fun hc => hne hc.1),
      if_neg (fun hc => hc h1), if_pos h2]

/-- C7 witness: the amended statement applied at concrete frames — an
ErrorResponse `[01 02 00 00 09]` surfaces ATT error code 9 from
`ExecuteWrite`, and a truncated ExchangeMTU response `[03 64]` is
`InvalidResponse`. -/
theorem response_validation_errors_witness :
    parseExecuteWriteResponse [1, 2, 0, 0, 9] = .error (.attError 9) ∧
      parseExchangeMTUResponse [3, 100] = .error .invalidResponse :=
  ⟨(response_validation_errors.1 [1, 2, 0, 0, 9] rfl rfl).1,
   response_validation_errors.2.2.2.2 [3, 100] rfl (by decide)⟩

/-! ## SMP manager dispatch (src/linux/hci/smp/manager.go) -/

/-- The SMP pairing states (src/linux/hci/smp/manager.go lines 13-24). -/
inductive PairingState
  | init
  | waitPairingResponse
  | waitPublicKey
  | waitConfirm
  | waitRandom
  | waitDhKeyCheck
  | finished
  | error
  deriving DecidableEq, Repr

/-- Modelled from the spec: the SMP `pairingFailed` opcode (0x05); the
SMP PDU constant table is not among the provided source files. -/
def pairingFailed : Nat := 0x05

/-- `manager.Handle` (src/linux/hci/smp/manager.go lines 76-105).  The
`dispatcher` table lives in a source file that was not provided, so it
is a parameter: `none` models `!ok || v.handler == nil`.  A handler,
when present, may change the pairing state; an unknown opcode answers
`[]byte{pairingFailed, 0x05}` and leaves the state untouched.  The
result is the new state and the PDUs sent to the peer. -/
def managerHandle
    (dispatcher : Nat → Option (PairingState → List Nat → PairingState))
    (st : PairingState) (payload : List Nat) :
    PairingState × List (List Nat) :=
  match dispatcher (payload.headD 0) with
  | none => (st, [[pairingFailed, 0x05]])
  | some h => (h st (payload.drop 1), [])

/-- C9: an SMP frame whose opcode has no registered handler is answered
with exactly the two-byte PDU `{PairingFailed, 0x05}` and the pairing
state machine does not advance. -/
theorem smp_unknown_opcode (dispatcher : Nat → Option (PairingState → List Nat → PairingState))
    (st : PairingState) (payload : List Nat)
    (h : dispatcher (payload.headD 0) = none) :
    managerHandle dispatcher st payload = (st, [[pairingFailed, 0x05]]) := by
  unfold managerHandle
  rw [h]

/-- C9 witness: the empty dispatcher and a frame with opcode 0x0C. -/
theorem smp_unknown_opcode_witness :
    managerHandle (fun _ => none) PairingState.init [0x0C, 1, 2]
      = (PairingState.init, [[pairingFailed, 0x05]]) :=
  smp_unknown_opcode (fun _ => none) PairingState.init [0x0C, 1, 2] rfl

/-! ## Handle-range argument validation (C10) -/

/-- Argument validation of `Client.FindInformation`
(src/linux/att/client.go lines 128-130): `starth == 0 || starth > endh`
is `ErrInvalidArgument`. -/
def findInformationArgCheck (starth endh : Nat) : Except AttErr Unit :=
  if starth = 0 ∨ endh < starth then .error .invalidArgument else .ok ()

/-- Argument validation of `Client.ReadByType`
(src/linux/att/client.go lines 182-184): only `starth > endh` and the
UUID width are checked; `starth == 0` is not. -/
def readByTypeArgCheck (starth endh uuidLen : Nat) : Except AttErr Unit :=
  if endh < starth ∨ (uuidLen ≠ 2 ∧ uuidLen ≠ 16) then .error .invalidArgument
  else .ok ()

/-- Argument validation of `Client.ReadByGroupType`
(src/linux/att/client.go lines 330-332): identical to `ReadByType`. -/
def readByGroupTypeArgCheck (starth endh uuidLen : Nat) : Except AttErr Unit :=
  if endh < starth ∨ (uuidLen ≠ 2 ∧ uuidLen ≠ 16) then .error .invalidArgument
  else .ok ()

/-- C10: handle-range validation is asymmetric — `FindInformation`
rejects `starth == 0` (and `starth > endh`) with `InvalidArgument`,
while `ReadByType` and `ReadByGroupType` accept `starth == 0` with any
`endh` and a 16-bit UUID, and proceed to take the transmit token and
send the request to the peer. -/
theorem handle_range_validation_asymmetry :
    (∀ s e, s = 0 ∨ e < s → findInformationArgCheck s e = .error .invalidArgument) ∧
    (∀ e, findInformationEvents 0 e = []) ∧
    (∀ e, readByTypeArgCheck 0 e 2 = .ok () ∧
      readByTypeEvents 0 e 2 = [.acquire, .send, .release]) ∧
    (∀ e, readByGroupTypeArgCheck 0 e 2 = .ok () ∧
      readByGroupTypeEvents 0 e 2 = [.acquire, .send, .release]) := by
  have hno : ∀ e : Nat, ¬(e < 0 ∨ (2 ≠ 2 ∧ 2 ≠ 16)) := by
    intro e hc
    rcases hc with hc | hc
    · omega
    · exact hc.1 rfl
  refine ⟨?_, ?_, ?_, ?_⟩
  · intro s e h
    unfold findInformationArgCheck
    rw [if_pos h]
  · intro e
    unfold findInformationEvents
    rw [if_pos (Or.inl rfl)]
  · intro e
    refine ⟨?_, ?_⟩
    · unfold readByTypeArgCheck
      rw [if_neg (hno e)]
    · unfold readByTypeEvents
      rw [if_neg (hno e)]
  · intro e
    refine ⟨?_, ?_⟩
    · unfold readByGroupTypeArgCheck
      rw [if_neg (hno e)]
    · unfold readByGroupTypeEvents
      rw [if_neg (hno e)]

/-- C10 witness: `FindInformation(0, 10)` is rejected while
`ReadByType(0, 10, 16-bit uuid)` sends the request. -/
theorem handle_range_validation_asymmetry_witness :
    findInformationArgCheck 0 10 = .error .invalidArgument ∧
      readByTypeArgCheck 0 10 2 = .ok () :=
  ⟨handle_range_validation_asymmetry.1 0 10 (Or.inl rfl),
   (handle_range_validation_asymmetry.2.2.1 10).1⟩

/-! ## GATT subscription bookkeeping (src/unnamed/part_001, `gatt` package)

`Client.Subscribe`/`Unsubscribe` delegate to `setHandlers`, which keeps
a map from value handle to a `sub{cccdh, ccc, nHandler, iHandler}`
slot.  Handlers are opaque to this bookkeeping — only nil-ness and
identity matter — so they are modelled as `Option Nat`.  The map is an
association list queried through `subsGet`; the outcome records the
ATT `Write(cccdh, value)` calls issued and whether the call returned
nil.  `writeOk` stands for the outcome of `p.ac.Write`. -/

def cccNotify : Nat := 0x0001
def cccIndicate : Nat := 0x0002

structure GSub where
  cccdh : Nat
  ccc : Nat
  nHandler : Option Nat
  iHandler : Option Nat
  deriving DecidableEq, Repr

def subsGet (subs : List (Nat × GSub)) (vh : Nat) : Option GSub :=
  match subs.find? (fun q => q.1 == vh) with
  | some q => some q.2
  | none => none

def subsErase (subs : List (Nat × GSub)) (vh : Nat) : List (Nat × GSub) :=
  subs.filter (fun q => q.1 != vh)

def subsInsert (subs : List (Nat × GSub)) (vh : Nat) (s : GSub) :
    List (Nat × GSub) :=
  (vh, s) :: subsErase subs vh

/-- `binary.LittleEndian.PutUint16` of the CCC value. -/
def le16 (x : Nat) : List Nat := [x % 256, x / 256 % 256]

structure SetHandlersOutcome where
  subs : List (Nat × GSub)
  attWrites : List (Nat × List Nat)
  ok : Bool
  deriving DecidableEq, Repr

/-- The CCC value after the `switch`: `s.ccc &= ^uint16(flag)` when the
handler is nil (unsubscribe), `s.ccc |= flag` otherwise. -/
def newCcc (s : GSub) (flag : Nat) (h : Option Nat) : Nat :=
  if h.isNone then s.ccc &&& (65535 ^^^ flag) else s.ccc ||| flag

/-- The slot after the `switch`: updated CCC bits plus the handler in
the slot matching the flag. -/
def updatedSub (s : GSub) (flag : Nat) (h : Option Nat) : GSub :=
  if flag = cccNotify then { s with ccc := newCcc s flag h, nHandler := h }
  else { s with ccc := newCcc s flag h, iHandler := h }

/-- The tail of `setHandlers`: `p.ac.Write(s.cccdh, v)`, deleting the
slot when the write fails. -/
def applyWrite (subs : List (Nat × GSub)) (vh : Nat) (s1 : GSub)
    (writeOk : Bool) : SetHandlersOutcome :=
  if writeOk then ⟨subsInsert subs vh s1, [(s1.cccdh, le16 s1.ccc)], true⟩
  else ⟨subsErase subs vh, [(s1.cccdh, le16 s1.ccc)], false⟩

/-- The `switch` of `setHandlers`, for slot `s` present in `subs`:
return nil with no write when the flag bit already has the desired
presence, otherwise flip the bit, store the handler, and write the
CCC value. -/
def setHandlersFound (subs : List (Nat × GSub)) (vh flag : Nat)
    (h : Option Nat) (writeOk : Bool) (s : GSub) : SetHandlersOutcome :=
  if h.isNone ∧ s.ccc &&& flag = 0 then ⟨subs, [], true⟩
  else if h.isSome ∧ s.ccc &&& flag ≠ 0 then ⟨subs, [], true⟩
  else applyWrite subs vh (updatedSub s flag h) writeOk

/-- `Client.setHandlers` (src/unnamed/part_001 lines 424-454): fetch
the slot — creating and storing a fresh `&sub{cccdh: cccdh}` when
absent — then run the `switch` on it. -/
def setHandlers (subs0 : List (Nat × GSub)) (cccdh vh flag : Nat)
    (h : Option Nat) (writeOk : Bool) : SetHandlersOutcome :=
  match subsGet subs0 vh with
  | some s => setHandlersFound subs0 vh flag h writeOk s
  | none =>
    setHandlersFound (subsInsert subs0 vh ⟨cccdh, 0, none, none⟩) vh flag h
      writeOk ⟨cccdh, 0, none, none⟩

/-- `Client.Subscribe` (src/unnamed/part_001 lines 396-408) for a
characteristic with CCCD handle `cccdh` and value handle `vh`. -/
def subscribe (subs : List (Nat × GSub)) (cccdh vh : Nat) (ind : Bool)
    (h : Option Nat) (writeOk : Bool) : SetHandlersOutcome :=
  setHandlers subs cccdh vh (if ind then cccIndicate else cccNotify) h writeOk

/-- `Client.Unsubscribe` (src/unnamed/part_001 lines 412-422). -/
def unsubscribe (subs : List (Nat × GSub)) (cccdh vh : Nat) (ind : Bool)
    (writeOk : Bool) : SetHandlersOutcome :=
  setHandlers subs cccdh vh (if ind then cccIndicate else cccNotify) none writeOk

theorem subsGet_insert (subs : List (Nat × GSub)) (vh : Nat) (s : GSub) :
    subsGet (subsInsert subs vh s) vh = some s := by
  unfold subsGet subsInsert
  rw [List.find?_cons_of_pos _ (by simp)]

theorem or_and_testBit_ne_zero (x flag i : Nat) (hbit : flag.testBit i = true) :
    (x ||| flag) &&& flag ≠ 0 := by
  intro h
  have h1 : ((x ||| flag) &&& flag).testBit i = false := by
    rw [h]; simp
  rw [Nat.testBit_and, Nat.testBit_or, hbit] at h1
  simp at h1

/-- `setHandlers` reduces to the `switch` on the stored slot. -/
theorem setHandlers_eq_found (subs : List (Nat × GSub)) (cccdh vh flag : Nat)
    (h : Option Nat) (wo : Bool) (s : GSub) (hget : subsGet subs vh = some s) :
    setHandlers subs cccdh vh flag h wo = setHandlersFound subs vh flag h wo s := by
  unfold setHandlers
  rw [hget]

/-- `setHandlers` on an absent slot first stores the fresh slot. -/
theorem setHandlers_eq_fresh (subs : List (Nat × GSub)) (cccdh vh flag : Nat)
    (h : Option Nat) (wo : Bool) (hget : subsGet subs vh = none) :
    setHandlers subs cccdh vh flag h wo
      = setHandlersFound (subsInsert subs vh ⟨cccdh, 0, none, none⟩) vh flag h
          wo ⟨cccdh, 0, none, none⟩ := by
  unfold setHandlers
  rw [hget]

/-- When the slot exists and the flag bit is already set, a subscribe
with a non-nil handler returns nil immediately: no write, no state
change. -/
theorem setHandlers_already_set (subs : List (Nat × GSub)) (cccdh vh flag k : Nat)
    (wo : Bool) (s : GSub) (hget : subsGet subs vh = some s)
    (hset : s.ccc &&& flag ≠ 0) :
    setHandlers subs cccdh vh flag (some k) wo = ⟨subs, [], true⟩ := by
  rw [setHandlers_eq_found subs cccdh vh flag (some k) wo s hget]
  unfold setHandlersFound
  rw [if_neg (by simp), if_pos ⟨by simp, hset⟩]

/-- The updated slot's CCC bits are `newCcc`, whichever handler slot
the flag selects. -/
theorem updatedSub_ccc (s : GSub) (flag : Nat) (h : Option Nat) :
    (updatedSub s flag h).ccc = newCcc s flag h := by
  unfold updatedSub
  split <;> rfl

/-- After a subscribe with a non-nil handler whose CCCD write
succeeded, the slot exists and has the flag bit set. -/
theorem subscribe_installs_flag (subs : List (Nat × GSub)) (cccdh vh flag k i : Nat)
    (hbit : flag.testBit i = true) :
    ∃ s1, subsGet (setHandlers subs cccdh vh flag (some k) true).subs vh = some s1
      ∧ s1.ccc &&& flag ≠ 0 := by
  cases hget : subsGet subs vh with
  | some s =>
    rw [setHandlers_eq_found subs cccdh vh flag (some k) true s hget]
    unfold setHandlersFound
    by_cases hset : s.ccc &&& flag = 0
    · rw [if_neg (by simp), if_neg (by simp [hset])]
      refine ⟨updatedSub s flag (some k), ?_, ?_⟩
      · unfold applyWrite
        rw [if_pos rfl]
        exact subsGet_insert _ _ _
      · rw [updatedSub_ccc]
        unfold newCcc
        simp only [Option.isNone_some, if_false]
        exact or_and_testBit_ne_zero s.ccc flag i hbit
    · rw [if_neg (by simp), if_pos ⟨by simp, hset⟩]
      exact ⟨s, hget, hset⟩
  | none =>
    rw [setHandlers_eq_fresh subs cccdh vh flag (some k) true hget]
    unfold setHandlersFound
    rw [if_neg (by simp), if_neg (by simp)]
    refine ⟨updatedSub ⟨cccdh, 0, none, none⟩ flag (some k), ?_, ?_⟩
    · unfold applyWrite
      rw [if_pos rfl]
      exact subsGet_insert _ _ _
    · rw [updatedSub_ccc]
      unfold newCcc
      simp only [Option.isNone_some, if_false]
      exact or_and_testBit_ne_zero 0 flag i hbit

/-- An unsubscribe while the flag bit is already clear (or the slot
absent) returns nil without issuing any ATT write. -/
theorem setHandlers_clear_noop (subs : List (Nat × GSub)) (cccdh vh flag : Nat)
    (wo : Bool) (h : ∀ s, subsGet subs vh = some s → s.ccc &&& flag = 0) :
    (setHandlers subs cccdh vh flag none wo).attWrites = []
      ∧ (setHandlers subs cccdh vh flag none wo).ok = true := by
  cases hget : subsGet subs vh with
  | some s =>
    have hclear := h s hget
    rw [setHandlers_eq_found subs cccdh vh flag none wo s hget]
    unfold setHandlersFound
    rw [if_pos ⟨by simp, hclear⟩]
    exact ⟨rfl, rfl⟩
  | none =>
    rw [setHandlers_eq_fresh subs cccdh vh flag none wo hget]
    unfold setHandlersFound
    rw [if_pos ⟨by simp, by simp [Nat.zero_and]⟩]
    exact ⟨rfl, rfl⟩

/-- C8: Subscribe is idempotent — once a Subscribe with a non-nil
handler for a given characteristic and flag has succeeded, a second
Subscribe for the same characteristic and flag returns nil without
issuing any ATT write to the CCCD and without changing the
subscription map; symmetrically, Unsubscribe when the flag bit is
already clear issues no write. -/
theorem subscribe_idempotent :
    (∀ (subs : List (Nat × GSub)) (cccdh cccdh' vh : Nat) (ind : Bool)
       (k k' : Nat) (wo' : Bool),
      subscribe (subscribe subs cccdh vh ind (some k) true).subs cccdh' vh ind
          (some k') wo'
        = ⟨(subscribe subs cccdh vh ind (some k) true).subs, [], true⟩) ∧
    (∀ (subs : List (Nat × GSub)) (cccdh vh : Nat) (ind : Bool) (wo : Bool),
      (∀ s, subsGet subs vh = some s →
        s.ccc &&& (if ind then cccIndicate else cccNotify) = 0) →
      (unsubscribe subs cccdh vh ind wo).attWrites = []
        ∧ (unsubscribe subs cccdh vh ind wo).ok = true) := by
  constructor
  · intro subs cccdh cccdh' vh ind k k' wo'
    unfold subscribe
    have hbit : (if ind then cccIndicate else cccNotify).testBit
        (if ind then 1 else 0) = true := by
      cases ind <;> decide
    obtain ⟨s1, hget, hset⟩ :=
      subscribe_installs_flag subs cccdh vh (if ind then cccIndicate else cccNotify)
        k (if ind then 1 else 0) hbit
    exact setHandlers_already_set _ cccdh' vh _ k' wo' s1 hget hset
  · intro subs cccdh vh ind wo h
    exact setHandlers_clear_noop subs cccdh vh _ wo h

/-- C8 witness: from the empty map, subscribing to notifications twice
— the second call changes nothing and writes nothing; unsubscribing
from indications on the empty map writes nothing. -/
theorem subscribe_idempotent_witness :
    subscribe (subscribe [] 3 5 false (some 7) true).subs 3 5 false (some 8) true
        = ⟨(subscribe [] 3 5 false (some 7) true).subs, [], true⟩ ∧
      (unsubscribe [] 3 5 true true).attWrites = [] :=
  ⟨subscribe_idempotent.1 [] 3 3 5 false 7 8 true,
   (subscribe_idempotent.2 [] 3 5 true true
      (fun s hs => by simp [subsGet] at hs)).1⟩

end Ble
